import Mathlib

/-!
Shallow embedding of the Business-Intelligence weather pipeline
(src/etl_weather.py.py) and its Streamlit dashboard (src/app.py),
with theorems settling the specification's claims about them.
-/

namespace BI

/-- A row of the `dim_location` dimension table (src/etl_weather.py.py,
lines 110-118): autoincrement integer primary key `location_id`, city name,
country, latitude, longitude.  The schema declares NO uniqueness constraint
other than the primary key. -/
structure LocationRow where
  location_id : Nat
  city_name : String
  country : String
  lat : Rat
  lon : Rat
deriving DecidableEq, Repr

/-- Largest `location_id` currently in the table; SQLite assigns
`max(rowid) + 1` to a fresh autoincrement insert. -/
def maxLocationId (table : List LocationRow) : Nat :=
  table.foldl (fun m r => max m r.location_id) 0

/-- SQLite `INSERT OR IGNORE INTO dim_location (lat, lon, city_name, country)`
against the schema of lines 110-118: the row is skipped only when it would
violate a declared uniqueness constraint.  The only such constraint is the
autoincrement primary key, which is freshly assigned here, so the check is
on `location_id` alone (there is no UNIQUE constraint on the natural key). -/
def insertOrIgnoreLocation (table : List LocationRow)
    (lat lon : Rat) (city country : String) : List LocationRow :=
  let newId := maxLocationId table + 1
  if table.any (fun r => r.location_id == newId) then
    table
  else
    table ++ [⟨newId, city, country, lat, lon⟩]

/-- The predefined city list of `seed_locations`
(src/etl_weather.py.py, lines 167-171), as (lat, lon, city, country). -/
def seedCities : List (Rat × Rat × String × String) :=
  [ (12.9716, 77.5946, "Bengaluru", "IN"),
    (51.5072, -0.1276, "London", "GB"),
    (40.7128, -74.0060, "New York", "US") ]

/-- `seed_locations` (src/etl_weather.py.py, lines 161-188): one
`INSERT OR IGNORE` per city tuple, in order. -/
def seed_locations (table : List LocationRow) : List LocationRow :=
  seedCities.foldl
    (fun t c =>
      match c with
      | (lat, lon, city, country) => insertOrIgnoreLocation t lat lon city country)
    table

/-- A flattened weather record as built by `fetch_one_record`
(src/etl_weather.py.py, lines 210-221): location id, UNIX observation
timestamp in seconds, and the measured fields. -/
structure WeatherRecord where
  location_id : Nat
  obs_ts : Int
  temp_c : Rat
  feels_like_c : Rat
  humidity_pct : Rat
  pressure_hpa : Rat
  wind_speed_ms : Rat
  clouds_pct : Rat
  weather_main : String
  weather_desc : String
deriving DecidableEq, Repr

/-- Failure modes of one fetch: `fetchError` is the HTTPError that
`raise_for_status()` raises on a 4xx/5xx status (line 208); `parseError` is
the KeyError/IndexError raised when an expected field is missing from the
JSON body (lines 210-221). -/
inductive FetchFailure where
  | fetchError (status : Nat)
  | parseError
deriving DecidableEq, Repr

/-- One element of the `weather` array of the API response body; its `main`
and `description` keys may be absent. -/
structure WeatherItem where
  main : Option String
  description : Option String
deriving DecidableEq, Repr

/-- The JSON body of a weather API response, with every field the code reads
modelled as optional (a `none` is an absent key).  `weather` is the JSON
array; an empty array makes `weather[0]` fail. -/
structure ApiBody where
  dt : Option Int
  main_temp : Option Rat
  main_feels_like : Option Rat
  main_humidity : Option Rat
  main_pressure : Option Rat
  wind_speed : Option Rat
  clouds_all : Option Rat
  weather : List WeatherItem
deriving DecidableEq, Repr

/-- An HTTP response from the weather API: status code plus JSON body. -/
structure ApiResponse where
  status_code : Nat
  body : ApiBody
deriving DecidableEq, Repr

/-- `fetch_one_record` (src/etl_weather.py.py, lines 196-221).
`r.raise_for_status()` raises `HTTPError` exactly when `400 ≤ status_code`;
otherwise the body is read in source order (`dt`, `main.temp`,
`main.feels_like`, `main.humidity`, `main.pressure`, `wind.speed`,
`clouds.all`, `weather[0].main`, `weather[0].description`), the first absent
key raising a parse failure, and the flattened record is returned. -/
def fetch_one_record (location_id : Nat) (resp : ApiResponse) :
    Except FetchFailure WeatherRecord :=
  if 400 ≤ resp.status_code then
    Except.error (FetchFailure.fetchError resp.status_code)
  else
    match resp.body.dt with
    | none => Except.error FetchFailure.parseError
    | some dt =>
      match resp.body.main_temp with
      | none => Except.error FetchFailure.parseError
      | some t =>
        match resp.body.main_feels_like with
        | none => Except.error FetchFailure.parseError
        | some fl =>
          match resp.body.main_humidity with
          | none => Except.error FetchFailure.parseError
          | some hum =>
            match resp.body.main_pressure with
            | none => Except.error FetchFailure.parseError
            | some p =>
              match resp.body.wind_speed with
              | none => Except.error FetchFailure.parseError
              | some w =>
                match resp.body.clouds_all with
                | none => Except.error FetchFailure.parseError
                | some c =>
                  match resp.body.weather with
                  | [] => Except.error FetchFailure.parseError
                  | item :: _ =>
                    match item.main with
                    | none => Except.error FetchFailure.parseError
                    | some m =>
                      match item.description with
                      | none => Except.error FetchFailure.parseError
                      | some d =>
                        Except.ok ⟨location_id, dt, t, fl, hum, p, w, c, m, d⟩

/-- Whether a fetch attempt succeeded. -/
def fetchOk (r : Except FetchFailure WeatherRecord) : Bool :=
  match r with
  | Except.ok _ => true
  | Except.error _ => false

/-- Result of one `etl_once` run (src/etl_weather.py.py, lines 286-334):
how many per-location fetches were attempted, whether the `to_sql` insert was
executed, the rows it appended, and whether a failure alert was sent on this
path. -/
structure EtlResult where
  fetchAttempts : Nat
  insertCalled : Bool
  inserted : List WeatherRecord
  alerted : Bool
deriving DecidableEq, Repr

/-- `etl_once` (src/etl_weather.py.py, lines 286-334), with the fetch
behaviour abstracted as a function from location to outcome.  An empty
`dim_location` returns immediately (lines 295-297): nothing is fetched,
inserted, raised or alerted.  Otherwise each location is fetched inside a
per-location try/except, so a failing fetch is skipped and only the
successes are collected (lines 300-311); if no fetch succeeded the insert is
skipped (lines 313-315), else the collected rows are appended in one
`to_sql` call (lines 326-327).  No alert is sent on any of these paths. -/
def etl_once (locs : List LocationRow)
    (fetch : LocationRow → Except FetchFailure WeatherRecord) : EtlResult :=
  if locs.isEmpty then
    ⟨0, false, [], false⟩
  else
    let rows := locs.filterMap (fun l =>
      match fetch l with
      | Except.ok r => some r
      | Except.error _ => none)
    if rows.isEmpty then
      ⟨locs.length, false, [], false⟩
    else
      ⟨locs.length, true, rows, false⟩

/-- The rows that fetch successfully during one ETL cycle, in location order
(the `rows` list built at src/etl_weather.py.py, lines 299-311). -/
def successRows (locs : List LocationRow)
    (fetch : LocationRow → Except FetchFailure WeatherRecord) :
    List WeatherRecord :=
  locs.filterMap (fun l =>
    match fetch l with
    | Except.ok r => some r
    | Except.error _ => none)

/-- A concrete weather record used to instantiate theorems on examples. -/
def sampleRecord : WeatherRecord :=
  ⟨1, 1700000000, 25, 26, 60, 1013, 3, 40, "Clear", "clear sky"⟩

/-- A response body carrying every field the code expects. -/
def fullBody : ApiBody :=
  ⟨some 1700000000, some 25, some 26, some 60, some 1013, some 3, some 40,
   [⟨some "Clear", some "clear sky"⟩]⟩

/-- A fetch behaviour in which exactly the location with id 2 fails with an
HTTP 500 and every other location succeeds. -/
def sampleFetchOneFails : LocationRow → Except FetchFailure WeatherRecord :=
  fun l =>
    if l.location_id == 2 then Except.error (FetchFailure.fetchError 500)
    else Except.ok { sampleRecord with location_id := l.location_id }

/-- The `hours` synthetic snapshots generated from one fetched base record
(src/etl_weather.py.py, lines 251-255): copies of `base` with `obs_ts`
shifted back by `h * 3600` seconds for `h = 0 .. hours-1`, all other fields
unchanged. -/
def snapshotsFor (base : WeatherRecord) (hours : Nat) : List WeatherRecord :=
  (List.range hours).map
    (fun (h : Nat) => { base with obs_ts := base.obs_ts - (h : Int) * 3600 })

/-- The per-location loop of `insert_backdated_snapshots`
(src/etl_weather.py.py, lines 243-256): locations are processed in order and
the first failing fetch raises out of the whole loop; when every fetch
succeeds, the per-location snapshot lists are concatenated in order. -/
def collectBackfillRows (locs : List LocationRow)
    (fetch : LocationRow → Except FetchFailure WeatherRecord)
    (hours : Nat) : Except FetchFailure (List WeatherRecord) :=
  match locs with
  | [] => Except.ok []
  | l :: rest =>
    match fetch l with
    | Except.error e => Except.error e
    | Except.ok base =>
      match collectBackfillRows rest fetch hours with
      | Except.error e => Except.error e
      | Except.ok tail => Except.ok (snapshotsFor base hours ++ tail)

/-- Outcome of one backfill run: the fact table contents afterwards, the
error that propagated (if any), and whether a failure alert was sent. -/
structure BackfillResult where
  fact : List WeatherRecord
  error : Option FetchFailure
  alerted : Bool
deriving DecidableEq, Repr

/-- `insert_backdated_snapshots` (src/etl_weather.py.py, lines 227-280).
An empty `dim_location` is a logged no-op (lines 239-241).  A raising fetch
reaches the except clause (alert, then re-raise, lines 276-280) before the
single bulk `to_sql` append of line 271 has run, so the fact table is left
unchanged.  Otherwise all generated rows for all locations are appended in
one batch. -/
def insert_backdated_snapshots (fact : List WeatherRecord)
    (locs : List LocationRow)
    (fetch : LocationRow → Except FetchFailure WeatherRecord)
    (hours : Nat) : BackfillResult :=
  if locs.isEmpty then ⟨fact, none, false⟩
  else
    match collectBackfillRows locs fetch hours with
    | Except.error e => ⟨fact, some e, true⟩
    | Except.ok rows => ⟨fact ++ rows, none, false⟩

/-- The observation timestamps of one location's generated snapshots, in
generation order. -/
def backfillTimestamps (base : WeatherRecord) (hours : Nat) : List Int :=
  (snapshotsFor base hours).map WeatherRecord.obs_ts

/-- `r` agrees with `b` on every field except possibly the timestamp. -/
def copiesMeasuredFields (b r : WeatherRecord) : Prop :=
  { b with obs_ts := r.obs_ts } = r

/-- The C8 scenario state: freshly recreated (empty) fact table, the three
cities seeded once, backfill of 25 hours per city, before any live ETL
cycle. -/
def backfillScenario
    (fetch : LocationRow → Except FetchFailure WeatherRecord) :
    BackfillResult :=
  insert_backdated_snapshots [] (seed_locations []) fetch 25

/-- The first seeded location row. -/
def loc1 : LocationRow := ⟨1, "Bengaluru", "IN", 12.9716, 77.5946⟩

/-- The second seeded location row. -/
def loc2 : LocationRow := ⟨2, "London", "GB", 51.5072, -0.1276⟩

/-- The third seeded location row. -/
def loc3 : LocationRow := ⟨3, "New York", "US", 40.7128, -74.0060⟩

/-- An all-succeeding fetch returning `sampleRecord` tagged with the
location's own id. -/
def sampleFetchAllOk : LocationRow → Except FetchFailure WeatherRecord :=
  fun l => Except.ok { sampleRecord with location_id := l.location_id }

/-- Outcome of `send_failure_alert` (src/etl_weather.py.py, lines 80-97):
the whole SMTP conversation sits inside a try/except whose handler only
prints, so a delivery failure is swallowed and the function always returns
normally — its result type has no error channel. -/
inductive MailOutcome where
  | sent
  | deliveryFailed (msg : String)
deriving DecidableEq, Repr

/-- `send_failure_alert` (src/etl_weather.py.py, lines 80-97), with the SMTP
delivery abstracted as an outcome: success reports the mail as sent, failure
is caught and merely logged. -/
def send_failure_alert (send : Except String Unit) : MailOutcome :=
  match send with
  | Except.ok _ => MailOutcome.sent
  | Except.error e => MailOutcome.deliveryFailed e

/-- `recreate_tables` (src/etl_weather.py.py, lines 140-155), with the DDL
work and the mail delivery abstracted as outcomes.  On a DDL failure the
alert is attempted and then the original error is re-raised (`raise`, line
155).  The first component is what propagates to the caller; the second is
the alert attempt made, if any. -/
def recreate_tables (ddl : Except String Unit) (send : Except String Unit) :
    Except String Unit × Option MailOutcome :=
  match ddl with
  | Except.ok _ => (Except.ok (), none)
  | Except.error e => (Except.error e, some (send_failure_alert send))

/-- A row of the dashboard's joined fact+dimension query
(src/app.py, lines 27-45): one fact row together with its city name.
`obs_ts` is the UNIX instant in seconds behind the UTC-aware index built at
lines 48-49. -/
structure JoinedRow where
  obs_ts : Int
  temp_c : Rat
  feels_like_c : Rat
  humidity_pct : Rat
  pressure_hpa : Rat
  wind_speed_ms : Rat
  clouds_pct : Rat
  city_name : String
  weather_main : String
  weather_desc : String
deriving DecidableEq, Repr

/-- The timestamp-range predicate of src/app.py, lines 100-102: both bounds
inclusive (`>= start_ts` and `<= end_ts`). -/
def inDateRange (s e : Int) (r : JoinedRow) : Bool :=
  decide (s ≤ r.obs_ts) && decide (r.obs_ts ≤ e)

/-- `df_filtered` (src/app.py, lines 89-102).  When at least one city is
selected, rows are narrowed to those cities (line 91); with an empty
selection the city filter is bypassed and all rows are kept (line 93,
`df_weather.copy()`).  The inclusive timestamp-range filter is then
applied. -/
def df_filtered (rows : List JoinedRow) (selected : List String)
    (s e : Int) : List JoinedRow :=
  let byCity :=
    if selected.isEmpty then rows
    else rows.filter (fun r => selected.contains r.city_name)
  byCity.filter (inDateRange s e)

/-- The displayed "Total Records" metric (src/app.py, lines 112 and
118-121): literally the length of the filtered frame. -/
def totalRecords (rows : List JoinedRow) (selected : List String)
    (s e : Int) : Nat :=
  (df_filtered rows selected s e).length

/-- The filtered set exactly as claim C2 words it: the subset of all joined
rows whose city is in the selected set and whose timestamp lies within
[start, end] inclusive.  Kept separate from `df_filtered`, which follows the
code, so the two can be compared. -/
def claimFilteredSet (rows : List JoinedRow) (selected : List String)
    (s e : Int) : List JoinedRow :=
  rows.filter (fun r => selected.contains r.city_name && inDateRange s e r)

/-- A sample joined row for the dashboard counterexamples and witnesses. -/
def sampleJoinedRow : JoinedRow :=
  ⟨0, 25, 26, 60, 1013, 3, 40, "Bengaluru", "Clear", "clear sky"⟩

/-- What one dashboard section renders for a given filtered frame. -/
inductive SectionOutput where
  | noData
  | metrics (total : Nat) (avgTemp : Rat) (avgHumidity : Rat)
  | table (rows : List JoinedRow)
  | chart (rows : List JoinedRow)
deriving DecidableEq, Repr

/-- Arithmetic mean of a list of rationals (pandas `.mean()` on a non-empty
column). -/
def ratMean (xs : List Rat) : Rat :=
  xs.foldl (fun a b => a + b) 0 / (xs.length : Rat)

/-- The Overview section (src/app.py, lines 115-133): it always renders the
three metrics; on an empty filtered frame the two averages fall back to 0
(lines 123 and 129).  This section has no empty-data message. -/
def renderOverview (rows : List JoinedRow) : SectionOutput :=
  SectionOutput.metrics rows.length
    (if rows.isEmpty then 0 else ratMean (rows.map JoinedRow.temp_c))
    (if rows.isEmpty then 0 else ratMean (rows.map JoinedRow.humidity_pct))

/-- The Statistics section (src/app.py, lines 139-161): explicit no-data
message on an empty frame, else the per-city statistics table. -/
def renderStats (rows : List JoinedRow) : SectionOutput :=
  if rows.isEmpty then SectionOutput.noData else SectionOutput.table rows

/-- The Correlation section (src/app.py, lines 167-188): explicit no-data
message on an empty frame, else the correlation-matrix chart. -/
def renderCorr (rows : List JoinedRow) : SectionOutput :=
  if rows.isEmpty then SectionOutput.noData else SectionOutput.chart rows

/-- The Histogram tab (src/app.py, lines 200-220): explicit no-data message
on an empty frame, else the histogram charts. -/
def renderHistogram (rows : List JoinedRow) : SectionOutput :=
  if rows.isEmpty then SectionOutput.noData else SectionOutput.chart rows

/-- The Boxplot tab (src/app.py, lines 223-242): explicit no-data message on
an empty frame, else the boxplot charts. -/
def renderBoxplot (rows : List JoinedRow) : SectionOutput :=
  if rows.isEmpty then SectionOutput.noData else SectionOutput.chart rows

/-- The Time Series tab (src/app.py, lines 245-259): explicit no-data
message on an empty frame, else the hourly-trend chart. -/
def renderTimeSeries (rows : List JoinedRow) : SectionOutput :=
  if rows.isEmpty then SectionOutput.noData else SectionOutput.chart rows

/-- The Scatterplot tab (src/app.py, lines 262-282): explicit no-data
message on an empty frame, else the scatter chart. -/
def renderScatter (rows : List JoinedRow) : SectionOutput :=
  if rows.isEmpty then SectionOutput.noData else SectionOutput.chart rows

/-- The Pie Chart tab (src/app.py, lines 285-297): explicit no-data message
on an empty frame, else the category pie chart. -/
def renderPie (rows : List JoinedRow) : SectionOutput :=
  if rows.isEmpty then SectionOutput.noData else SectionOutput.chart rows

end BI

namespace BI

/-- The ETL cycle's success list has exactly one row per location whose fetch
succeeded. -/
theorem successRows_length (fetch : LocationRow → Except FetchFailure WeatherRecord) :
    ∀ locs : List LocationRow,
      (successRows locs fetch).length
        = (locs.filter (fun l => fetchOk (fetch l))).length := by
  intro locs
  induction locs with
  | nil => rfl
  | cons l rest ih =>
    cases hf : fetch l <;>
      simp [successRows, List.filterMap_cons, List.filter_cons, fetchOk, hf] <;>
      simpa [successRows] using ih

/-- If every fetch fails, the ETL cycle collects no rows. -/
theorem successRows_nil_of_all_fail
    (fetch : LocationRow → Except FetchFailure WeatherRecord)
    (locs : List LocationRow) (h : ∀ l ∈ locs, fetchOk (fetch l) = false) :
    successRows locs fetch = [] := by
  induction locs with
  | nil => rfl
  | cons l rest ih =>
    have hl := h l (by simp)
    cases hf : fetch l with
    | ok r => rw [hf] at hl; simp [fetchOk] at hl
    | error e =>
      simp [successRows, List.filterMap_cons, hf]
      simpa [successRows] using ih (fun x hx => h x (by simp [hx]))

/-- CLAIM C1.  Re-running `seed_locations` with the same input list leaves the
`dim_location` row count unchanged, and each (lat, lon, city, country) tuple is
inserted at most once.  The code violates this: `dim_location` declares no
UNIQUE constraint on the natural key, so `INSERT OR IGNORE` never ignores and a
second seeding run doubles the table from 3 rows to 6, with the Bengaluru tuple
present twice — contradicting the function's own docstring
("rerunning won't duplicate"). -/
theorem seed_locations_duplicates_on_rerun :
    (seed_locations (List.nil : List LocationRow)).length = 3 ∧
    (seed_locations (seed_locations List.nil)).length = 6 ∧
    ((seed_locations (seed_locations List.nil)).filter
      (fun r => r.city_name == "Bengaluru")).length = 2 := by
  decide

/-- CLAIM C6.  `fetch_one_record` fails with a `fetchError` carrying the
status on every non-success (4xx/5xx) HTTP status; on a success status it
fails with `parseError` whenever an expected field is absent — enumerated
here at the first absent field in the code's read order, which covers every
body with a missing field — and when all fields are present it returns the
flattened record of exactly those fields. -/
theorem fetch_one_record_spec :
    (∀ (lid st : Nat) (body : ApiBody), 400 ≤ st →
      fetch_one_record lid ⟨st, body⟩
        = Except.error (FetchFailure.fetchError st)) ∧
    (∀ (lid st : Nat) (t fl hum p w c : Option Rat) (ws : List WeatherItem),
      st < 400 →
      fetch_one_record lid ⟨st, ⟨none, t, fl, hum, p, w, c, ws⟩⟩
        = Except.error FetchFailure.parseError) ∧
    (∀ (lid st : Nat) (dt : Int) (fl hum p w c : Option Rat)
        (ws : List WeatherItem), st < 400 →
      fetch_one_record lid ⟨st, ⟨some dt, none, fl, hum, p, w, c, ws⟩⟩
        = Except.error FetchFailure.parseError) ∧
    (∀ (lid st : Nat) (dt : Int) (t : Rat) (hum p w c : Option Rat)
        (ws : List WeatherItem), st < 400 →
      fetch_one_record lid ⟨st, ⟨some dt, some t, none, hum, p, w, c, ws⟩⟩
        = Except.error FetchFailure.parseError) ∧
    (∀ (lid st : Nat) (dt : Int) (t fl : Rat) (p w c : Option Rat)
        (ws : List WeatherItem), st < 400 →
      fetch_one_record lid ⟨st, ⟨some dt, some t, some fl, none, p, w, c, ws⟩⟩
        = Except.error FetchFailure.parseError) ∧
    (∀ (lid st : Nat) (dt : Int) (t fl hum : Rat) (w c : Option Rat)
        (ws : List WeatherItem), st < 400 →
      fetch_one_record lid
          ⟨st, ⟨some dt, some t, some fl, some hum, none, w, c, ws⟩⟩
        = Except.error FetchFailure.parseError) ∧
    (∀ (lid st : Nat) (dt : Int) (t fl hum p : Rat) (c : Option Rat)
        (ws : List WeatherItem), st < 400 →
      fetch_one_record lid
          ⟨st, ⟨some dt, some t, some fl, some hum, some p, none, c, ws⟩⟩
        = Except.error FetchFailure.parseError) ∧
    (∀ (lid st : Nat) (dt : Int) (t fl hum p w : Rat)
        (ws : List WeatherItem), st < 400 →
      fetch_one_record lid
          ⟨st, ⟨some dt, some t, some fl, some hum, some p, some w, none, ws⟩⟩
        = Except.error FetchFailure.parseError) ∧
    (∀ (lid st : Nat) (dt : Int) (t fl hum p w c : Rat), st < 400 →
      fetch_one_record lid
          ⟨st, ⟨some dt, some t, some fl, some hum, some p, some w, some c, []⟩⟩
        = Except.error FetchFailure.parseError) ∧
    (∀ (lid st : Nat) (dt : Int) (t fl hum p w c : Rat)
        (d : Option String) (ws : List WeatherItem), st < 400 →
      fetch_one_record lid
          ⟨st, ⟨some dt, some t, some fl, some hum, some p, some w, some c,
                ⟨none, d⟩ :: ws⟩⟩
        = Except.error FetchFailure.parseError) ∧
    (∀ (lid st : Nat) (dt : Int) (t fl hum p w c : Rat) (m : String)
        (ws : List WeatherItem), st < 400 →
      fetch_one_record lid
          ⟨st, ⟨some dt, some t, some fl, some hum, some p, some w, some c,
                ⟨some m, none⟩ :: ws⟩⟩
        = Except.error FetchFailure.parseError) ∧
    (∀ (lid st : Nat) (dt : Int) (t fl hum p w c : Rat) (m d : String)
        (ws : List WeatherItem), st < 400 →
      fetch_one_record lid
          ⟨st, ⟨some dt, some t, some fl, some hum, some p, some w, some c,
                ⟨some m, some d⟩ :: ws⟩⟩
        = Except.ok ⟨lid, dt, t, fl, hum, p, w, c, m, d⟩) := by
  refine ⟨?_, ?_, ?_, ?_, ?_, ?_, ?_, ?_, ?_, ?_, ?_, ?_⟩ <;>
    intros <;> rename_i h <;>
    simp only [fetch_one_record] <;>
    first
      | rw [if_pos h]
      | rw [if_neg (Nat.not_le.mpr h)]

/-- CLAIM C6 witness: the three branches evaluated on concrete responses —
a 404 status, a body missing `dt`, and a complete body. -/
theorem fetch_one_record_spec_witness :
    fetch_one_record 1 ⟨404, fullBody⟩
        = Except.error (FetchFailure.fetchError 404) ∧
    fetch_one_record 1 ⟨200, ⟨none, none, none, none, none, none, none, []⟩⟩
        = Except.error FetchFailure.parseError ∧
    fetch_one_record 1 ⟨200, fullBody⟩
        = Except.ok ⟨1, 1700000000, 25, 26, 60, 1013, 3, 40, "Clear", "clear sky"⟩ :=
  ⟨fetch_one_record_spec.1 1 404 fullBody (by decide),
   fetch_one_record_spec.2.1 1 200 none none none none none none [] (by decide),
   (fetch_one_record_spec.2.2.2.2.2.2.2.2.2.2.2) 1 200 1700000000 25 26 60 1013 3 40
     "Clear" "clear sky" [] (by decide)⟩

/-- CLAIM C3.  In every ETL cycle over a non-empty location list, a failing
fetch is skipped rather than aborting the cycle: the number of rows inserted
equals the number of locations whose fetch succeeded, and if every fetch
fails the insert call is skipped entirely. -/
theorem etl_once_yield_spec (locs : List LocationRow)
    (fetch : LocationRow → Except FetchFailure WeatherRecord)
    (h : locs ≠ []) :
    (etl_once locs fetch).inserted.length
        = (locs.filter (fun l => fetchOk (fetch l))).length ∧
    ((∀ l ∈ locs, fetchOk (fetch l) = false) →
      (etl_once locs fetch).insertCalled = false ∧
        (etl_once locs fetch).inserted = []) := by
  cases locs with
  | nil => cases h rfl
  | cons a t =>
    have hunfold : etl_once (a :: t) fetch
        = if (successRows (a :: t) fetch).isEmpty then
            ⟨(a :: t).length, false, [], false⟩
          else
            ⟨(a :: t).length, true, successRows (a :: t) fetch, false⟩ := by
      simp [etl_once, successRows]
    constructor
    · rw [hunfold]
      by_cases hr : (successRows (a :: t) fetch).isEmpty
      · rw [if_pos hr]
        have h0 : (successRows (a :: t) fetch).length = 0 := by
          simpa [List.isEmpty_iff] using hr
        simp [← successRows_length fetch (a :: t), h0]
      · rw [if_neg hr]
        exact successRows_length fetch (a :: t)
    · intro hall
      have hnil : successRows (a :: t) fetch = [] :=
        successRows_nil_of_all_fail fetch (a :: t) hall
      rw [hunfold, if_pos (by simp [hnil])]
      exact ⟨rfl, rfl⟩

/-- CLAIM C3 witness: three seeded locations of which exactly one (id 2)
fails with an HTTP error — exactly two rows are inserted and the batch is
not aborted. -/
theorem etl_once_yield_spec_witness :
    seed_locations [] ≠ [] ∧
    (etl_once (seed_locations []) sampleFetchOneFails).inserted.length
        = ((seed_locations []).filter
            (fun l => fetchOk (sampleFetchOneFails l))).length ∧
    (etl_once (seed_locations []) sampleFetchOneFails).inserted.length = 2 ∧
    (etl_once (seed_locations []) sampleFetchOneFails).insertCalled = true :=
  ⟨by decide,
   (etl_once_yield_spec (seed_locations []) sampleFetchOneFails (by decide)).1,
   by decide, by decide⟩

/-- CLAIM C10.  With an empty `dim_location`, `etl_once` returns immediately:
no fetch is attempted, no insert is made, nothing is raised and no alert is
sent (the function is total here and yields the quiet result). -/
theorem etl_once_empty_locations_spec
    (fetch : LocationRow → Except FetchFailure WeatherRecord) :
    etl_once [] fetch = ⟨0, false, [], false⟩ :=
  rfl

/-- One `seed_locations` run on the freshly recreated table yields the three
city rows with ids 1, 2, 3. -/
theorem seed_locations_nil_eq : seed_locations [] = [loc1, loc2, loc3] :=
  rfl

/-- Each location's backfill generates exactly `hours` snapshots. -/
theorem length_snapshotsFor (b : WeatherRecord) (n : Nat) :
    (snapshotsFor b n).length = n := by
  simp only [snapshotsFor, List.length_map, List.length_range]

/-- Every generated snapshot is the base record with an hourly-shifted
timestamp. -/
theorem mem_snapshotsFor {r b : WeatherRecord} {n : Nat}
    (hr : r ∈ snapshotsFor b n) :
    ∃ k, k < n ∧ r = { b with obs_ts := b.obs_ts - (k : Int) * 3600 } := by
  simp only [snapshotsFor, List.mem_map, List.mem_range] at hr
  obtain ⟨k, hk, hkr⟩ := hr
  exact ⟨k, hk, hkr.symm⟩

/-- Snapshots keep their base record's location id. -/
theorem snapshots_location_id {r b : WeatherRecord} {n : Nat}
    (hr : r ∈ snapshotsFor b n) : r.location_id = b.location_id := by
  obtain ⟨k, _, rfl⟩ := mem_snapshotsFor hr
  rfl

/-- Snapshots copy every measured field of their base record. -/
theorem snapshots_copies {r b : WeatherRecord} {n : Nat}
    (hr : r ∈ snapshotsFor b n) : copiesMeasuredFields b r := by
  obtain ⟨k, _, rfl⟩ := mem_snapshotsFor hr
  rfl

/-- Counting one location's snapshots by location id. -/
theorem filter_snapshotsFor_id (b : WeatherRecord) (n idq : Nat) :
    ((snapshotsFor b n).filter (fun r => r.location_id == idq)).length
      = if b.location_id == idq then n else 0 := by
  by_cases hb : b.location_id == idq
  · rw [if_pos hb, List.filter_eq_self.2, length_snapshotsFor]
    intro r hr
    rw [snapshots_location_id hr]
    exact hb
  · rw [if_neg hb]
    have hfil : (snapshotsFor b n).filter (fun r => r.location_id == idq) = [] := by
      refine List.filter_eq_nil_iff.2 (fun r hr => ?_)
      rw [snapshots_location_id hr]
      exact hb
    rw [hfil]
    rfl

/-- The generated timestamp list is an hourly regression from the base
instant. -/
theorem backfillTimestamps_eq (b : WeatherRecord) (N : Nat) :
    backfillTimestamps b N
      = (List.range N).map (fun (h : Nat) => b.obs_ts - (h : Int) * 3600) := by
  simp only [backfillTimestamps, snapshotsFor, List.map_map]
  rfl

/-- Index formula for the generated timestamps. -/
theorem backfillTimestamps_getD (b : WeatherRecord) {N i : Nat} (hi : i < N) :
    (backfillTimestamps b N).getD i 0 = b.obs_ts - (i : Int) * 3600 := by
  rw [backfillTimestamps_eq, List.getD_eq_getElem?_getD, List.getElem?_map,
    List.getElem?_range hi]
  rfl

/-- CLAIM C4.  For a backfill run with `hoursCount = N`, the N generated
observation timestamps for one location are `base - h*3600` for
`h = 0 .. N-1`: a strictly decreasing sequence anchored at the fetched base
instant with consecutive values exactly 3600 seconds apart. -/
theorem backfill_timestamps_spec (b : WeatherRecord) (N : Nat) :
    (backfillTimestamps b N).length = N ∧
    (∀ i, i < N →
      (backfillTimestamps b N).getD i 0 = b.obs_ts - (i : Int) * 3600) ∧
    (0 < N → (backfillTimestamps b N).getD 0 0 = b.obs_ts) ∧
    (∀ i, i + 1 < N →
      (backfillTimestamps b N).getD i 0
          - (backfillTimestamps b N).getD (i + 1) 0 = 3600 ∧
      (backfillTimestamps b N).getD (i + 1) 0
          < (backfillTimestamps b N).getD i 0) := by
  refine ⟨?_, ?_, ?_, ?_⟩
  · simp [backfillTimestamps, length_snapshotsFor]
  · intro i hi
    exact backfillTimestamps_getD b hi
  · intro hN
    simpa using backfillTimestamps_getD b hN
  · intro i hi
    rw [backfillTimestamps_getD b (Nat.lt_of_succ_lt hi),
      backfillTimestamps_getD b hi]
    constructor
    · push_cast
      ring
    · push_cast
      omega

/-- CLAIM C4 witness: the first two of three generated timestamps for the
sample base record are one hour apart and decreasing, and the sequence is
anchored at the base instant. -/
theorem backfill_timestamps_spec_witness :
    (0 : Nat) + 1 < 3 ∧
    (backfillTimestamps sampleRecord 3).getD 0 0
        - (backfillTimestamps sampleRecord 3).getD 1 0 = 3600 ∧
    (backfillTimestamps sampleRecord 3).getD 1 0
        < (backfillTimestamps sampleRecord 3).getD 0 0 ∧
    (backfillTimestamps sampleRecord 3).getD 0 0 = sampleRecord.obs_ts :=
  ⟨by decide,
   ((backfill_timestamps_spec sampleRecord 3).2.2.2 0 (by decide)).1,
   ((backfill_timestamps_spec sampleRecord 3).2.2.2 0 (by decide)).2,
   (backfill_timestamps_spec sampleRecord 3).2.2.1 (by decide)⟩

/-- A failing fetch anywhere in the backfill loop makes the whole collection
raise. -/
theorem collect_error_of_exists_fail
    (fetch : LocationRow → Except FetchFailure WeatherRecord) (hours : Nat) :
    ∀ locs : List LocationRow, (∃ l ∈ locs, fetchOk (fetch l) = false) →
      ∃ e, collectBackfillRows locs fetch hours = Except.error e := by
  intro locs
  induction locs with
  | nil =>
    rintro ⟨l, hl, _⟩
    cases hl
  | cons a t ih =>
    rintro ⟨l, hl, hfail⟩
    cases hfa : fetch a with
    | error e => exact ⟨e, by simp [collectBackfillRows, hfa]⟩
    | ok base =>
      have hlt : l ∈ t := by
        rcases List.mem_cons.1 hl with rfl | hmem
        · rw [hfa] at hfail
          simp [fetchOk] at hfail
        · exact hmem
      obtain ⟨e, he⟩ := ih ⟨l, hlt, hfail⟩
      exact ⟨e, by simp [collectBackfillRows, hfa, he]⟩

/-- CLAIM C9.  If any location's fetch raises during a backfill run, zero
rows are inserted: the single bulk append only runs after the whole fetch
loop has completed, so the fact table is left exactly as it was, and the
error propagates. -/
theorem backfill_atomic_on_fetch_failure (fact : List WeatherRecord)
    (locs : List LocationRow)
    (fetch : LocationRow → Except FetchFailure WeatherRecord) (hours : Nat)
    (h : ∃ l ∈ locs, fetchOk (fetch l) = false) :
    (insert_backdated_snapshots fact locs fetch hours).fact = fact ∧
    (insert_backdated_snapshots fact locs fetch hours).error ≠ none := by
  obtain ⟨e, he⟩ := collect_error_of_exists_fail fetch hours locs h
  have hne : locs.isEmpty = false := by
    obtain ⟨l, hl, _⟩ := h
    cases locs with
    | nil => cases hl
    | cons a t => rfl
  simp [insert_backdated_snapshots, hne, he]

/-- CLAIM C9 witness: with the London fetch failing, a backfill over the
three seeded cities leaves a one-row fact table exactly as it was. -/
theorem backfill_atomic_on_fetch_failure_witness :
    (∃ l ∈ seed_locations [], fetchOk (sampleFetchOneFails l) = false) ∧
    (insert_backdated_snapshots [sampleRecord] (seed_locations [])
        sampleFetchOneFails 25).fact = [sampleRecord] :=
  ⟨⟨loc2, by rw [seed_locations_nil_eq]; simp, by decide⟩,
   (backfill_atomic_on_fetch_failure [sampleRecord] (seed_locations [])
      sampleFetchOneFails 25
      ⟨loc2, by rw [seed_locations_nil_eq]; simp, by decide⟩).1⟩

/-- CLAIM C8.  Seed three cities, backfill 25 hours each, before any live
ETL cycle: the fact table holds exactly 75 rows, 25 per location, and every
synthetic row copies all measured fields unchanged from that location's
single fetched base record (only the timestamp differs). -/
theorem backfill_scenario_spec
    (fetch : LocationRow → Except FetchFailure WeatherRecord)
    (h : ∀ l ∈ seed_locations [], ∃ b, fetch l = Except.ok b ∧
          b.location_id = l.location_id) :
    (backfillScenario fetch).fact.length = 75 ∧
    (∀ l ∈ seed_locations [],
      ((backfillScenario fetch).fact.filter
        (fun r => r.location_id == l.location_id)).length = 25) ∧
    (∀ r ∈ (backfillScenario fetch).fact,
      ∃ l ∈ seed_locations [], ∃ b, fetch l = Except.ok b ∧
        copiesMeasuredFields b r) := by
  obtain ⟨b1, hb1, hid1⟩ := h loc1 (by rw [seed_locations_nil_eq]; simp)
  obtain ⟨b2, hb2, hid2⟩ := h loc2 (by rw [seed_locations_nil_eq]; simp)
  obtain ⟨b3, hb3, hid3⟩ := h loc3 (by rw [seed_locations_nil_eq]; simp)
  have hcollect : collectBackfillRows [loc1, loc2, loc3] fetch 25
      = Except.ok
          (snapshotsFor b1 25 ++ (snapshotsFor b2 25 ++ snapshotsFor b3 25)) := by
    simp only [collectBackfillRows, hb1, hb2, hb3, List.append_nil]
  have hfact : (backfillScenario fetch).fact
      = snapshotsFor b1 25 ++ (snapshotsFor b2 25 ++ snapshotsFor b3 25) := by
    unfold backfillScenario insert_backdated_snapshots
    rw [seed_locations_nil_eq]
    rw [if_neg (by decide : ¬([loc1, loc2, loc3].isEmpty = true))]
    rw [hcollect]
    simp
  refine ⟨?_, ?_, ?_⟩
  · rw [hfact]
    simp [length_snapshotsFor]
  · intro l hl
    rw [seed_locations_nil_eq] at hl
    simp only [List.mem_cons, List.not_mem_nil, or_false] at hl
    rw [hfact]
    simp only [List.filter_append, List.length_append, filter_snapshotsFor_id,
      hid1, hid2, hid3]
    rcases hl with rfl | rfl | rfl
    · simp [loc1, loc2, loc3]
    · simp [loc1, loc2, loc3]
    · simp [loc1, loc2, loc3]
  · intro r hr
    rw [hfact] at hr
    rcases List.mem_append.1 hr with h1 | h23
    · exact ⟨loc1, by rw [seed_locations_nil_eq]; simp, b1, hb1,
        snapshots_copies h1⟩
    · rcases List.mem_append.1 h23 with h2 | h3
      · exact ⟨loc2, by rw [seed_locations_nil_eq]; simp, b2, hb2,
          snapshots_copies h2⟩
      · exact ⟨loc3, by rw [seed_locations_nil_eq]; simp, b3, hb3,
          snapshots_copies h3⟩

/-- CLAIM C8 witness: with every fetch succeeding, the scenario's fact table
holds exactly 75 rows. -/
theorem backfill_scenario_spec_witness :
    (∀ l ∈ seed_locations [], ∃ b, sampleFetchAllOk l = Except.ok b ∧
        b.location_id = l.location_id) ∧
    (backfillScenario sampleFetchAllOk).fact.length = 75 :=
  ⟨fun l _ => ⟨{ sampleRecord with location_id := l.location_id }, rfl, rfl⟩,
   (backfill_scenario_spec sampleFetchAllOk
      (fun l _ =>
        ⟨{ sampleRecord with location_id := l.location_id }, rfl, rfl⟩)).1⟩

/-- CLAIM C2 counterexample: with an empty selected-city set the code keeps
every row (src/app.py, line 93), while the claim's "subset of rows whose
city is in the selected set" would be empty — the two differ on a one-row
table whose timestamp lies inside the range. -/
theorem df_filtered_empty_selection_cex :
    df_filtered [sampleJoinedRow] [] (-1) 1
      ≠ claimFilteredSet [sampleJoinedRow] [] (-1) 1 := by
  decide

/-- CLAIM C2 (amended).  The displayed "Total Records" metric always equals
the row count of the filtered set; whenever at least one city is selected,
the filtered set is exactly the subset of all joined rows whose city is in
the selected set and whose timestamp lies within [start, end] inclusive;
with an empty selection the city condition is dropped (all rows pass it) and
only the inclusive date filter applies. -/
theorem df_filtered_amended_spec (rows : List JoinedRow)
    (selected : List String) (s e : Int) :
    totalRecords rows selected s e = (df_filtered rows selected s e).length ∧
    (selected ≠ [] →
      df_filtered rows selected s e = claimFilteredSet rows selected s e) ∧
    (selected = [] →
      df_filtered rows selected s e = rows.filter (inDateRange s e)) := by
  refine ⟨rfl, ?_, ?_⟩
  · intro hne
    cases selected with
    | nil => cases hne rfl
    | cons a t =>
      simp only [df_filtered, claimFilteredSet, List.isEmpty_cons,
        Bool.false_eq_true, if_false, List.filter_filter]
      exact List.filter_congr (fun r _ => Bool.and_comm _ _)
  · intro hsel
    subst hsel
    rfl

/-- CLAIM C2 witness: one selected city on a one-row table — the code's
filtered set coincides with the claim's subset and the metric counts it. -/
theorem df_filtered_amended_spec_witness :
    (["Bengaluru"] : List String) ≠ [] ∧
    df_filtered [sampleJoinedRow] ["Bengaluru"] (-1) 1
      = claimFilteredSet [sampleJoinedRow] ["Bengaluru"] (-1) 1 ∧
    totalRecords [sampleJoinedRow] ["Bengaluru"] (-1) 1 = 1 :=
  ⟨by decide,
   (df_filtered_amended_spec [sampleJoinedRow] ["Bengaluru"] (-1) 1).2.1
     (by decide),
   by decide⟩

/-- CLAIM C5 counterexample: on an empty filtered set the Overview section
renders zero-valued metrics (src/app.py, lines 115-133), not the "no data"
indicator the claim requires of every enabled section. -/
theorem overview_empty_cex :
    renderOverview [] ≠ SectionOutput.noData := by
  decide

/-- CLAIM C5 (amended).  On an empty filtered result set, every enabled
section other than the Overview renders its explicit "no data" indicator;
the Overview instead renders its metrics with Total Records 0 and both
averages 0.  Every render function is total, so no exception reaches the
viewer. -/
theorem dashboard_empty_sections_spec :
    renderStats [] = SectionOutput.noData ∧
    renderCorr [] = SectionOutput.noData ∧
    renderHistogram [] = SectionOutput.noData ∧
    renderBoxplot [] = SectionOutput.noData ∧
    renderTimeSeries [] = SectionOutput.noData ∧
    renderScatter [] = SectionOutput.noData ∧
    renderPie [] = SectionOutput.noData ∧
    renderOverview [] = SectionOutput.metrics 0 0 0 :=
  ⟨rfl, rfl, rfl, rfl, rfl, rfl, rfl, rfl⟩

/-- CLAIM C7.  Alerting is best-effort: `send_failure_alert` swallows a mail
delivery failure (its result type has no error channel — the except handler
only logs), and when a pipeline stage such as `recreate_tables` fails, the
original stage error is what propagates to the caller regardless of the
delivery outcome; no alert is attempted when the stage succeeds. -/
theorem alert_best_effort_spec (e m : String) (send : Except String Unit) :
    send_failure_alert (Except.error m) = MailOutcome.deliveryFailed m ∧
    (recreate_tables (Except.error e) send).1 = Except.error e ∧
    (recreate_tables (Except.error e) (Except.error m)).2
      = some (MailOutcome.deliveryFailed m) ∧
    (recreate_tables (Except.ok ()) send).2 = none :=
  ⟨rfl, rfl, rfl, rfl⟩

end BI
